import Mathlib

/-!
Verification of the pycodex backend execution core.

The Python sources (src/pycodex/utils.py, codex.py, gemini.py,
exceptions.py, cli_wrapper.py) are shallowly embedded below.  External
effects (environment variables, the file system, child processes, the
interactive prompt) are supplied by an `Env` record of oracles; every
function of the source becomes a pure Lean function of that record.
Python strings are Lean `String`s, and the handful of Python string
operations the code uses (`split`, `strip`, `lower`, `startswith`,
membership) are re-implemented below with Python semantics on the
character list, so that all definitions evaluate by the kernel.
-/

namespace Pycodex

/-- Whitespace set of Python `str.strip`: space, tab, newline, carriage
return, vertical tab, form feed. -/
def pyIsSpace (c : Char) : Bool :=
  c = ' ' ∨ c = '\t' ∨ c = '\n' ∨ c = '\r' ∨ c = Char.ofNat 11 ∨ c = Char.ofNat 12

/-- Python `s.strip()`: drop leading and trailing whitespace. -/
def pyStrip (s : String) : String :=
  String.mk (((s.data.dropWhile pyIsSpace).reverse.dropWhile pyIsSpace).reverse)

/-- Python `s.lower()` (ASCII case folding, which is all the code compares). -/
def pyLower (s : String) : String :=
  String.mk (s.data.map Char.toLower)

/-- Python `s.startswith(pre)`. -/
def pyStartsWith (s pre : String) : Bool :=
  pre.data.isPrefixOf s.data

/-- Python `c in s` for a single character `c`. -/
def pyContainsChar (s : String) (c : Char) : Bool :=
  s.data.contains c

/-- Worker for `pySplit`: fuel-indexed leftmost splitting on a non-empty
separator, so that the recursion is structural and kernel-evaluable.
`cur` is the current segment, reversed. -/
def pySplitGo (sep : List Char) : Nat → List Char → List Char → List (List Char)
  | _, cur, [] => [cur.reverse]
  | 0, cur, rest => [cur.reverse ++ rest]
  | fuel + 1, cur, c :: cs =>
    if sep.isPrefixOf (c :: cs) then
      cur.reverse :: pySplitGo sep fuel [] ((c :: cs).drop sep.length)
    else
      pySplitGo sep fuel (c :: cur) cs

/-- Python `s.split(sep)` for a non-empty separator: exact, non-overlapping,
leftmost-first splitting.  (Python raises on an empty separator; the code
only ever splits on the fence and on a newline, both non-empty.) -/
def pySplit (s sep : String) : List String :=
  if sep = "" then [s]
  else (pySplitGo sep.data s.data.length [] s.data).map String.mk

/-- Python `s.split(sep, 1)` when `sep` occurs in `s`: the segment before the
first occurrence and everything after it.  Rejoining the tail of the full
split with the separator restores the remainder exactly. -/
def split_once (s sep : String) : String × String :=
  match pySplit s sep with
  | [] => (s, "")
  | [a] => (a, "")
  | a :: rest => (a, String.intercalate sep rest)

/-- Python `a or b` for an optional string `a`: `None` and `""` are falsy. -/
def pyOr (a : Option String) (b : String) : String :=
  match a with
  | none => b
  | some s => if s = "" then b else s

/-- Python `a or b` on two strings: `""` is falsy. -/
def pyOrS (a b : String) : String :=
  if a = "" then b else a

/-- Substring test, used to state that an error message contains a text. -/
def strContains (s pat : String) : Bool :=
  decide (pat.data <:+: s.data)

/-!
Output Parser (src/pycodex/utils.py, `parse_code_and_text`).

The source initialises `code = ''`, `text = output`, and only enters the
fenced branch when the fence occurs in `output` and the split yields at
least three segments; since a fence-free string splits into one segment,
the two guards collapse to the segment-count test.  The source strips
`text` inside the branch and strips both components again on return;
stripping twice equals stripping once, so a single strip per component is
taken below, and `''.strip()` is written `""`.
-/

/-- Embedding of `parse_code_and_text`: split CLI output into (code, text)
using the first fenced block when present. -/
def parse_code_and_text (output : String) : String × String :=
  let fence := "```"
  let segments := pySplit output fence
  if segments.length ≥ 3 then
    -- Assume the code is in the first fenced block
    let code_block := segments.getD 1 ""
    let code :=
      if pyContainsChar code_block '\n' then
        -- Drop optional language spec on first line
        let first_line := (split_once code_block "\n").1
        let rest := (split_once code_block "\n").2
        if pyStrip first_line ≠ "" ∧ ¬ pyStartsWith (pyStrip first_line) "#" then rest
        else code_block
      else code_block
    -- Text becomes everything else (pre + post)
    let text := (segments.getD 0 "") ++ String.join (segments.drop 2)
    (pyStrip code, pyStrip text)
  else ("", pyStrip output)

/-!
Effects model.  Every external interaction of the Python code is an
oracle field of `Env`:
  - `getenv`: `os.getenv` (`none` = variable unset);
  - `isExecFile`: `os.path.isfile(p) and os.access(p, os.X_OK)`;
  - `inputLine`: `input(prompt)` (`none` = EOF raised);
  - `proc`: the behaviour of one `subprocess.Popen` + `communicate` round,
    keyed by command line, stdin text and timeout; `timedOut` carries what
    the post-kill `communicate` returns;
  - `readFile`: `open(p).read()` outcomes;
  - `tmpPath`, `tmpExists`, `tmpContent`: the temp file the codex adapter
    hands to the tool via `--output-last-message` and reads back;
  - `cfgCodex`: the `backend.codex` table of `~/.pycodex/config.toml`
    (`get_config`), as string-valued lookups.
-/

/-- Outcome of reading a file (`read_text`): content, `FileNotFoundError`,
or any other exception with its text. -/
inductive ReadOutcome where
  | ok (content : String)
  | notFound
  | failed (msg : String)
deriving DecidableEq

/-- Outcome of one child-process round: normal completion with exit status
and captured streams, or `subprocess.TimeoutExpired`, in which case the
fields are what `communicate()` returns after `kill()`. -/
inductive ProcOutcome where
  | completed (returncode : Int) (out err : Option String)
  | timedOut (out err : Option String)
deriving DecidableEq

/-- Oracles for the program's external world. -/
structure Env where
  getenv : String → Option String
  isExecFile : String → Bool
  inputLine : String → Option String
  proc : List String → Option String → Option Nat → ProcOutcome
  readFile : String → ReadOutcome
  tmpPath : String
  tmpExists : Bool
  tmpContent : String
  cfgCodex : String → Option String

/-- Exceptions of src/pycodex/exceptions.py.  `approvalRequired` models the
spec's `ApprovalRequiredError` (§7); the source defines no such class, and
the constructor exists only so that claims about it can be stated. -/
inductive PyErr where
  | backendNotFound (msg : String)
  | executionError (msg : String)
  | approvalRequired (msg : String)
deriving DecidableEq

/-- Recognise a `BackendNotFoundError` outcome. -/
def isBackendNotFound {α : Type} : Except PyErr α → Bool
  | .error (.backendNotFound _) => true
  | _ => false

/-- Recognise an `ApprovalRequiredError` outcome. -/
def isApprovalRequired {α : Type} : Except PyErr α → Bool
  | .error (.approvalRequired _) => true
  | _ => false

/-- Extract the message of an `ExecutionError` outcome. -/
def executionErrMsg {α : Type} : Except PyErr α → Option String
  | .error (.executionError m) => some m
  | _ => none

/-- An operation's outcome together with the trace of child command lines
it spawned (used to state that no process was spawned). -/
abbrev Outcome (α : Type) := Except PyErr α × List (List String)

/-- Embedding of `is_noninteractive`. -/
def is_noninteractive (env : Env) : Bool :=
  (env.getenv "PYCODEX_NONINTERACTIVE").getD "0" = "1"

/-- Embedding of `approve_action`: prompt for a yes/no answer; EOF and
noninteractive mode answer no. -/
def approve_action (env : Env) (prompt : String) : Bool :=
  if is_noninteractive env then false
  else
    match env.inputLine (prompt ++ " [y/N]: ") with
    | none => false
    | some ans =>
      let a := pyLower (pyStrip ans)
      a = "y" ∨ a = "yes"

/-- Embedding of `run_subprocess`: one child-process round.  On timeout the
child is killed and the partial output returned with status 124. -/
def run_subprocess (env : Env) (cmd : List String) (input_text : Option String)
    (timeout : Option Nat) : Int × String × String :=
  match env.proc cmd input_text timeout with
  | .completed rc out err => (rc, pyOr out "", pyOr err "")
  | .timedOut out err => (124, pyOr out "", pyOr err "Timeout expired")

/-- Embedding of `exec_shell_command`: the approval gate, returning the
`(status, stdout, stderr)` triple or the raised exception, plus the spawn
trace. -/
def exec_shell_command (env : Env) (command : String) (safe : Bool)
    (approval_mode : String) : Outcome (Int × String × String) :=
  let cmd := ["bash", "-lc", command]
  let do_exec : Outcome (Int × String × String) :=
    (Except.ok (run_subprocess env cmd none none), [cmd])
  if ¬ safe ∨ approval_mode = "full-auto" then do_exec
  else if approval_mode = "auto-edit" then do_exec
  -- 'suggest' mode
  else if is_noninteractive env then
    (Except.error (PyErr.executionError
      "Safe execution requires approval in noninteractive mode. Set approval_mode=\x27full-auto\x27 or PYCODEX_NONINTERACTIVE=0."), [])
  else if approve_action env ("Execute command: " ++ command) then do_exec
  else (Except.ok (125, "", "Command not approved by user"), [])

/-- Embedding of `which`: first PATH entry whose joined candidate is an
executable file. -/
def which (env : Env) (cmd : String) : Option String :=
  (pySplit ((env.getenv "PATH").getD "") ":").findSome? fun p =>
    let candidate := p ++ "/" ++ cmd
    if env.isExecFile candidate then some candidate else none

/-- Embedding of `read_files`: combined prompt context and inclusion log.
Files that fail to read contribute nothing to the context and a line to
the log. -/
def read_files (env : Env) (paths : List String) : String × String :=
  let combined := paths.filterMap fun p =>
    match env.readFile p with
    | .ok content => some ("\n===== FILE: " ++ p ++ " =====\n" ++ content ++ "\n")
    | _ => none
  let logs := paths.map fun p =>
    match env.readFile p with
    | .ok content => "Included file: " ++ p ++ " (" ++ toString content.length ++ " chars)"
    | .notFound => "File not found: " ++ p
    | .failed e => "Error reading " ++ p ++ ": " ++ e
  (String.join combined, String.intercalate "\n" logs)

/-- `CodexResult` of src/pycodex/cli_wrapper.py. -/
structure CodexResult where
  code : String
  text : String
  log : String
deriving DecidableEq

/-- `CommandResult` of src/pycodex/cli_wrapper.py. -/
structure CommandResult where
  output : String
  error : String
  status_code : Int
deriving DecidableEq

/-- State of a constructed `CodexBackend`.  The two behaviour toggles
`use_files_arg` and `split_edit` are set by `__init__` but never consulted
by the four operations, so they are not modelled. -/
structure CodexBackend where
  model : String
  approval_mode : String
  base_cmd : String
  available : Bool
deriving DecidableEq

/-- Embedding of `CodexBackend.__init__` (field computation): each field is
the Python truthiness chain over environment variable, constructor
argument, `backend.codex` config entry and hard-coded default;
`approval_mode` and `base_cmd` use `os.getenv`'s default-argument form, in
which a set-but-empty variable is still taken. -/
def codexInit (env : Env) (model : Option String) (approval_mode : String) : CodexBackend :=
  let bc := env.cfgCodex
  let m := pyOr (env.getenv "PYCODEX_CODEX_MODEL") (pyOr model (pyOr (bc "model") "gpt-5-codex"))
  let am := (env.getenv "PYCODEX_APPROVAL").getD
    (pyOrS approval_mode (pyOr (bc "approval_mode") "suggest"))
  let base := (env.getenv "PYCODEX_CODEX_CLI").getD (pyOr (bc "cli") "codex")
  { model := m, approval_mode := am, base_cmd := base,
    available := (which env base).isSome }

/-- Sandbox flag value of `CodexBackend._run_exec`: environment variable,
falling back to the `backend.codex.sandbox` config entry. -/
def codexSandbox (env : Env) : Option String :=
  match env.getenv "PYCODEX_CODEX_SANDBOX" with
  | some s => if s = "" then env.cfgCodex "sandbox" else some s
  | none => env.cfgCodex "sandbox"

/-- Embedding of `CodexBackend._ensure_available`: the check that makes the
operation raise `BackendNotFoundError`. -/
def CodexBackend.unavailable (b : CodexBackend) (env : Env) : Bool :=
  ¬ b.available ∧ (which env b.base_cmd) = none

/-- Embedding of `CodexBackend._run_exec`: availability check, prompt
assembly, command construction, invocation, last-message retrieval,
error check, parsing. -/
def CodexBackend.run_exec (b : CodexBackend) (env : Env) (prompt : String)
    (files : List String) : Outcome CodexResult :=
  if b.unavailable env then
    (Except.error (PyErr.backendNotFound
      ("Codex CLI not found: \x27" ++ b.base_cmd ++ "\x27. Set PYCODEX_CODEX_CLI or install the CLI.")), [])
  else
    let rf := read_files env files
    let context := rf.1
    let file_log := rf.2
    let full_prompt :=
      if context ≠ "" then prompt ++ "\n\n[CONTEXT]\n" ++ context else prompt
    let tmp_path := env.tmpPath
    let cmd : List String :=
      [b.base_cmd, "exec"]
      ++ (if b.model ≠ "" then ["--model", b.model] else [])
      ++ ["--color", "never", "--skip-git-repo-check"]
      ++ (match codexSandbox env with
          | some s => if s = "" then [] else ["--sandbox", s]
          | none => [])
      ++ ["--output-last-message", tmp_path]
    let r := run_subprocess env cmd (some full_prompt) none
    let status := r.1
    let out := r.2.1
    let err := r.2.2
    let last_msg := if env.tmpExists then env.tmpContent else out
    if status ≠ 0 then
      (Except.error (PyErr.executionError
        ("Codex CLI failed (" ++ toString status ++ "): " ++ pyOrS (pyStrip err) (pyStrip out))), [cmd])
    else
      let pc := parse_code_and_text last_msg
      (Except.ok { code := pc.1, text := pc.2,
                   log := "cmd=" ++ String.intercalate " " cmd ++ "\n" ++ file_log }, [cmd])

/-- Embedding of `CodexBackend.generate`. -/
def CodexBackend.generate (b : CodexBackend) (env : Env) (prompt : String)
    (files : List String) : Outcome CodexResult :=
  b.run_exec env prompt files

/-- Embedding of `CodexBackend.explain`. -/
def CodexBackend.explain (b : CodexBackend) (env : Env) (code : String) :
    Outcome CodexResult :=
  b.run_exec env
    ("Explain the following code in clear terms. Include purpose, key logic, and potential issues.\n\n```\n"
      ++ code ++ "\n```\n") []

/-- Embedding of `CodexBackend.edit`. -/
def CodexBackend.edit (b : CodexBackend) (env : Env) (code instructions : String) :
    Outcome CodexResult :=
  b.run_exec env
    ("Edit the code per the instructions. Respond with the full, updated code in a fenced block.\n\n[INSTRUCTIONS]\n"
      ++ instructions ++ "\n\n[CODE]\n```\n" ++ code ++ "\n```\n") []

/-- Embedding of `CodexBackend.exec_command`: delegate to the approval gate
with the adapter's configured mode. -/
def CodexBackend.exec_command (b : CodexBackend) (env : Env) (command : String)
    (safe : Bool) : Outcome CommandResult :=
  match exec_shell_command env command safe b.approval_mode with
  | (Except.ok (st, out, err), sp) =>
    (Except.ok { output := out, error := err, status_code := st }, sp)
  | (Except.error e, sp) => (Except.error e, sp)

/-- Embedding of `build_cli_command`: base command, subcommand, optional
model and approval flags, optional extra arguments. -/
def build_cli_command (base_cmd subcommand : String) (model : Option String)
    (approval_mode : Option String) (extra_args : Option (List String)) : List String :=
  [base_cmd, subcommand]
  ++ (match model with
      | some m => if m = "" then [] else ["--model", m]
      | none => [])
  ++ (match approval_mode with
      | some a => if a = "" then [] else ["--approval", a]
      | none => [])
  ++ extra_args.getD []

/-- State of a constructed `GeminiBackend`. -/
structure GeminiBackend where
  model : Option String
  approval_mode : String
  base_cmd : String
  available : Bool
deriving DecidableEq

/-- Embedding of `GeminiBackend.__init__`: the model and approval mode are
the constructor arguments unchanged; the binary comes from the environment
variable or the hard-coded default; no config file is consulted. -/
def geminiInit (env : Env) (model : Option String) (approval_mode : String) : GeminiBackend :=
  let base := (env.getenv "PYCODEX_GEMINI_CLI").getD "gemini"
  { model := model, approval_mode := approval_mode, base_cmd := base,
    available := (which env base).isSome }

/-- Embedding of `GeminiBackend._ensure_available`. -/
def GeminiBackend.unavailable (b : GeminiBackend) (env : Env) : Bool :=
  ¬ b.available ∧ (which env b.base_cmd) = none

/-- Embedding of `GeminiBackend._invoke`: availability check, input
assembly, command construction, invocation, error check, parsing of
standard output. -/
def GeminiBackend.invoke (b : GeminiBackend) (env : Env) (subcommand payload : String)
    (files : List String) : Outcome CodexResult :=
  if b.unavailable env then
    (Except.error (PyErr.backendNotFound
      ("Gemini CLI not found: \x27" ++ b.base_cmd ++ "\x27. Set PYCODEX_GEMINI_CLI or install the CLI.")), [])
  else
    let rf := read_files env files
    let context := rf.1
    let file_log := rf.2
    let full_input :=
      if context ≠ "" then payload ++ "\n\n[CONTEXT]\n" ++ context else payload
    let cmd := build_cli_command b.base_cmd subcommand b.model (some b.approval_mode) none
    let r := run_subprocess env cmd (some full_input) none
    let status := r.1
    let out := r.2.1
    let err := r.2.2
    if status ≠ 0 then
      (Except.error (PyErr.executionError
        ("Gemini CLI failed (" ++ toString status ++ "): " ++ pyOrS (pyStrip err) (pyStrip out))), [cmd])
    else
      let pc := parse_code_and_text out
      (Except.ok { code := pc.1, text := pc.2,
                   log := "cmd=" ++ String.intercalate " " cmd ++ "\n" ++ file_log }, [cmd])

/-- Embedding of `GeminiBackend.generate`. -/
def GeminiBackend.generate (b : GeminiBackend) (env : Env) (prompt : String)
    (files : List String) : Outcome CodexResult :=
  b.invoke env "generate" prompt files

/-- Embedding of `GeminiBackend.explain`. -/
def GeminiBackend.explain (b : GeminiBackend) (env : Env) (code : String) :
    Outcome CodexResult :=
  b.invoke env "explain" code []

/-- Embedding of `GeminiBackend.edit`. -/
def GeminiBackend.edit (b : GeminiBackend) (env : Env) (code instructions : String) :
    Outcome CodexResult :=
  b.invoke env "edit" ("[INSTRUCTIONS]\n" ++ instructions ++ "\n\n[CODE]\n" ++ code) []

/-- Embedding of `GeminiBackend.exec_command`. -/
def GeminiBackend.exec_command (b : GeminiBackend) (env : Env) (command : String)
    (safe : Bool) : Outcome CommandResult :=
  match exec_shell_command env command safe b.approval_mode with
  | (Except.ok (st, out, err), sp) =>
    (Except.ok { output := out, error := err, status_code := st }, sp)
  | (Except.error e, sp) => (Except.error e, sp)

/-!
Concrete environments used by witnesses and counterexamples.
-/

/-- Environment with `PYCODEX_NONINTERACTIVE=1` and nothing else. -/
def envNI : Env where
  getenv := fun v => if v = "PYCODEX_NONINTERACTIVE" then some "1" else none
  isExecFile := fun _ => false
  inputLine := fun _ => none
  proc := fun _ _ _ => ProcOutcome.completed 0 (some "") (some "")
  readFile := fun _ => ReadOutcome.notFound
  tmpPath := "/tmp/pycodex_last_msg_a.txt"
  tmpExists := false
  tmpContent := ""
  cfgCodex := fun _ => none

/-- Interactive environment whose user answers `y` to every prompt, with an
empty executable search path. -/
def envYes : Env where
  getenv := fun _ => none
  isExecFile := fun _ => false
  inputLine := fun _ => some "y"
  proc := fun _ _ _ => ProcOutcome.completed 0 (some "") (some "")
  readFile := fun _ => ReadOutcome.notFound
  tmpPath := "/tmp/pycodex_last_msg_b.txt"
  tmpExists := false
  tmpContent := ""
  cfgCodex := fun _ => none

/-- Interactive environment whose user answers every prompt with an empty
line. -/
def envNo : Env where
  getenv := fun _ => none
  isExecFile := fun _ => false
  inputLine := fun _ => some ""
  proc := fun _ _ _ => ProcOutcome.completed 0 (some "") (some "")
  readFile := fun _ => ReadOutcome.notFound
  tmpPath := "/tmp/pycodex_last_msg_c.txt"
  tmpExists := false
  tmpContent := ""
  cfgCodex := fun _ => none

/-- Environment whose child process never finishes in time: the first
`communicate` raises `TimeoutExpired`, and after `kill()` the partial
output `"partial"` and no stderr are collected. -/
def envT : Env where
  getenv := fun _ => none
  isExecFile := fun _ => false
  inputLine := fun _ => none
  proc := fun _ _ _ => ProcOutcome.timedOut (some "partial") none
  readFile := fun _ => ReadOutcome.notFound
  tmpPath := "/tmp/pycodex_last_msg_d.txt"
  tmpExists := false
  tmpContent := ""
  cfgCodex := fun _ => none

/-- Environment in which every candidate binary resolves and every child
process exits 2 with stderr `"bad flag"`. -/
def envRun : Env where
  getenv := fun v => if v = "PATH" then some "/usr/bin" else none
  isExecFile := fun _ => true
  inputLine := fun _ => none
  proc := fun _ _ _ => ProcOutcome.completed 2 (some "") (some "bad flag")
  readFile := fun _ => ReadOutcome.notFound
  tmpPath := "/tmp/pycodex_last_msg_e.txt"
  tmpExists := false
  tmpContent := ""
  cfgCodex := fun _ => none

/-- Environment with no variables set and a config file carrying
`backend.codex.model = "config-model"` and
`backend.codex.approval_mode = "full-auto"`. -/
def envCfg : Env where
  getenv := fun _ => none
  isExecFile := fun _ => false
  inputLine := fun _ => none
  proc := fun _ _ _ => ProcOutcome.completed 0 (some "") (some "")
  readFile := fun _ => ReadOutcome.notFound
  tmpPath := "/tmp/pycodex_last_msg_f.txt"
  tmpExists := false
  tmpContent := ""
  cfgCodex := fun k =>
    if k = "model" then some "config-model"
    else if k = "approval_mode" then some "full-auto" else none

/-- Environment with `PYCODEX_CODEX_MODEL=env-model` set and a config file
carrying `backend.codex.model = "config-model"`. -/
def envE : Env where
  getenv := fun v => if v = "PYCODEX_CODEX_MODEL" then some "env-model" else none
  isExecFile := fun _ => false
  inputLine := fun _ => none
  proc := fun _ _ _ => ProcOutcome.completed 0 (some "") (some "")
  readFile := fun _ => ReadOutcome.notFound
  tmpPath := "/tmp/pycodex_last_msg_g.txt"
  tmpExists := false
  tmpContent := ""
  cfgCodex := fun k => if k = "model" then some "config-model" else none

end Pycodex

namespace Pycodex

/-- Claim C4: for every command string, whenever `safe=false` or
`approval_mode='full-auto'`, `exec_shell_command` executes the command
immediately without asking for confirmation, regardless of interactivity
and of the confirmation function's behaviour: over every environment, the
result is exactly one run of `bash -lc <command>` with its triple, and the
interactive prompt is never consulted. -/
theorem unsafe_or_full_auto_executes_immediately (env : Env) (command : String)
    (safe : Bool) (approval_mode : String)
    (h : safe = false ∨ approval_mode = "full-auto") :
    exec_shell_command env command safe approval_mode =
      (Except.ok (run_subprocess env ["bash", "-lc", command] none none),
       [["bash", "-lc", command]]) := by
  rcases h with h | h <;> simp [exec_shell_command, h]

/-- Witness for C4 at a concrete input. -/
theorem unsafe_or_full_auto_witness :
    exec_shell_command envNI "ls" false "suggest" =
      (Except.ok (run_subprocess envNI ["bash", "-lc", "ls"] none none),
       [["bash", "-lc", "ls"]]) :=
  unsafe_or_full_auto_executes_immediately envNI "ls" false "suggest" (Or.inl rfl)

/-- Claim C3: for every command string and every `approval_mode` value
outside `{suggest, auto-edit, full-auto}`, `exec_shell_command` with
`safe=true` behaves exactly as it would with `approval_mode='suggest'`. -/
theorem unknown_approval_mode_behaves_as_suggest (env : Env) (command : String)
    (approval_mode : String) (_h1 : approval_mode ≠ "suggest")
    (h2 : approval_mode ≠ "auto-edit") (h3 : approval_mode ≠ "full-auto") :
    exec_shell_command env command true approval_mode =
      exec_shell_command env command true "suggest" := by
  simp [exec_shell_command, h2, h3]

/-- Witness for C3 at a concrete input. -/
theorem unknown_approval_mode_witness :
    exec_shell_command envYes "ls" true "yolo" =
      exec_shell_command envYes "ls" true "suggest" :=
  unknown_approval_mode_behaves_as_suggest envYes "ls" "yolo"
    (by decide) (by decide) (by decide)

/-- Claim C2, amended: with `safe=true`, `approval_mode='suggest'` and
non-interactive mode active, `exec_shell_command` fails with
`ExecutionError` (the code defines no `ApprovalRequiredError`) and the
command is not executed. -/
theorem suggest_noninteractive_execution_error (env : Env) (command : String)
    (h : is_noninteractive env = true) :
    exec_shell_command env command true "suggest" =
      (Except.error (PyErr.executionError
        "Safe execution requires approval in noninteractive mode. Set approval_mode=\x27full-auto\x27 or PYCODEX_NONINTERACTIVE=0."),
       []) := by
  simp [exec_shell_command, h]

/-- Witness for the amended C2 at a concrete input. -/
theorem suggest_noninteractive_witness :
    exec_shell_command envNI "ls" true "suggest" =
      (Except.error (PyErr.executionError
        "Safe execution requires approval in noninteractive mode. Set approval_mode=\x27full-auto\x27 or PYCODEX_NONINTERACTIVE=0."),
       []) :=
  suggest_noninteractive_execution_error envNI "ls" (by decide)

/-- Counterexample to C2 as stated: in a non-interactive environment the
suggest-mode gate raises `ExecutionError`, not the spec's
`ApprovalRequiredError` (no such exception class exists in the code); the
command is indeed not executed. -/
theorem suggest_noninteractive_not_approval_required :
    isApprovalRequired (exec_shell_command envNI "ls" true "suggest").1 = false ∧
    (executionErrMsg (exec_shell_command envNI "ls" true "suggest").1).isSome = true ∧
    (exec_shell_command envNI "ls" true "suggest").2 = [] := by
  decide

/-- Claim C5: with `safe=true`, `approval_mode='suggest'`, an interactive
context, and a confirmation answer that is EOF, empty, or anything other
than yes (empty and EOF default to no), `exec_shell_command` returns the
normal triple `(125, '', 'Command not approved by user')` without raising
and without executing the command. -/
theorem suggest_declined_returns_125 (env : Env) (command : String)
    (hni : is_noninteractive env = false)
    (hdecl : ∀ s, env.inputLine (("Execute command: " ++ command) ++ " [y/N]: ") = some s →
      pyLower (pyStrip s) ≠ "y" ∧ pyLower (pyStrip s) ≠ "yes") :
    exec_shell_command env command true "suggest" =
      (Except.ok (125, "", "Command not approved by user"), []) := by
  have ha : approve_action env ("Execute command: " ++ command) = false := by
    unfold approve_action
    rw [hni]
    cases h : env.inputLine (("Execute command: " ++ command) ++ " [y/N]: ") with
    | none => simp
    | some s =>
      have := hdecl s h
      simp [this.1, this.2]
  simp [exec_shell_command, hni, ha]

/-- Witness for C5 at a concrete input: the user answers with an empty
line, which defaults to no. -/
theorem suggest_declined_witness :
    exec_shell_command envNo "rm -rf x" true "suggest" =
      (Except.ok (125, "", "Command not approved by user"), []) :=
  suggest_declined_returns_125 envNo "rm -rf x" (by decide)
    (fun s h => by
      have hs : s = "" := by
        have : (some "" : Option String) = some s := h
        exact (Option.some.injEq _ _ ▸ this).symm
      subst hs
      exact ⟨by decide, by decide⟩)

/-- Claim C6: for every command line and timeout, if the timeout elapses
before the child exits, `run_subprocess` kills the child (the `timedOut`
branch of the process oracle) and returns exit status 124 together with
the partially captured standard output; the returned standard error is
`"Timeout expired"` whenever no other error text was captured, and the
captured error text itself otherwise. -/
theorem run_subprocess_timeout_returns_124 (env : Env) (cmd : List String)
    (input_text : Option String) (timeout : Option Nat) (out err : Option String)
    (h : env.proc cmd input_text timeout = ProcOutcome.timedOut out err) :
    (run_subprocess env cmd input_text timeout).1 = 124 ∧
    (run_subprocess env cmd input_text timeout).2.1 = pyOr out "" ∧
    ((err = none ∨ err = some "") →
      (run_subprocess env cmd input_text timeout).2.2 = "Timeout expired") ∧
    (∀ e, err = some e → e ≠ "" →
      (run_subprocess env cmd input_text timeout).2.2 = e) := by
  refine ⟨?_, ?_, ?_, ?_⟩
  · simp [run_subprocess, h]
  · simp [run_subprocess, h]
  · rintro (rfl | rfl) <;> simp [run_subprocess, h, pyOr]
  · rintro e rfl he
    simp [run_subprocess, h, pyOr, he]

/-- Witness for C6 at a concrete input: a long-running command under a
short timeout yields 124, the partial output and the timeout marker. -/
theorem run_subprocess_timeout_witness :
    (run_subprocess envT ["sleep", "5"] none (some 1)).1 = 124 ∧
    (run_subprocess envT ["sleep", "5"] none (some 1)).2.1 = pyOr (some "partial") "" ∧
    (run_subprocess envT ["sleep", "5"] none (some 1)).2.2 = "Timeout expired" :=
  ⟨(run_subprocess_timeout_returns_124 envT _ _ _ _ _ rfl).1,
   (run_subprocess_timeout_returns_124 envT _ _ _ _ _ rfl).2.1,
   (run_subprocess_timeout_returns_124 envT _ _ _ _ _ rfl).2.2.1 (Or.inl rfl)⟩

/-- Claim C10: for every input in which the fence marker occurs but the
split yields fewer than three segments (an unterminated fence),
`parse_code_and_text` returns an empty code component and the whole input
stripped of leading and trailing whitespace, without raising. -/
theorem unterminated_fence_returns_text_only (output : String)
    (hocc : 2 ≤ (pySplit output "```").length)
    (hlt : (pySplit output "```").length < 3) :
    parse_code_and_text output = ("", pyStrip output) := by
  unfold parse_code_and_text
  rw [if_neg (by omega)]

/-- Witness for C10 at a concrete input with a single fence marker. -/
theorem unterminated_fence_witness :
    2 ≤ (pySplit " abc```def " "```").length ∧
    (pySplit " abc```def " "```").length < 3 ∧
    parse_code_and_text " abc```def " = ("", pyStrip " abc```def ") ∧
    pyStrip " abc```def " = "abc```def" :=
  ⟨by decide, by decide,
   unterminated_fence_returns_text_only " abc```def " (by decide) (by decide),
   by decide⟩

/-- Claim C8: for every raw output string splitting into at least three
segments on the fence marker, `parse_code_and_text` takes the first
fenced body and: if the body contains a newline, the first line is
discarded and the remainder returned as code, unless the first line is
empty (up to whitespace) or begins with `#` after its surrounding
whitespace — exactly the source's check on the stripped first line — in
which case the whole fenced body is kept; a body without a newline is the
code verbatim; both returned components are stripped, the text being the
pre-fence segment joined with everything after the first fenced body. -/
theorem parse_fenced_block_heuristic (output : String)
    (h : 3 ≤ (pySplit output "```").length) :
    parse_code_and_text output =
      (pyStrip (
        if pyContainsChar ((pySplit output "```").getD 1 "") '\n' then
          if pyStrip ((split_once ((pySplit output "```").getD 1 "") "\n").1) = "" ∨
             pyStartsWith (pyStrip ((split_once ((pySplit output "```").getD 1 "") "\n").1)) "#" then
            (pySplit output "```").getD 1 ""
          else (split_once ((pySplit output "```").getD 1 "") "\n").2
        else (pySplit output "```").getD 1 ""),
       pyStrip (((pySplit output "```").getD 0 "") ++
         String.join ((pySplit output "```").drop 2))) := by
  unfold parse_code_and_text
  rw [if_pos h]
  refine Prod.ext ?_ rfl
  dsimp only
  generalize (pySplit output "```").getD 1 "" = cb
  by_cases hc : pyContainsChar cb '\n' = true
  · rw [if_pos hc, if_pos hc]
    by_cases h1 : pyStrip ((split_once cb "\n").1) = ""
    · rw [if_neg (by simp [h1]), if_pos (Or.inl h1)]
    · by_cases h2 : pyStartsWith (pyStrip ((split_once cb "\n").1)) "#" = true
      · rw [if_neg (by simp [h2]), if_pos (Or.inr h2)]
      · rw [if_pos ⟨h1, by simp [h2]⟩, if_neg (by simp [h1, h2])]
  · rw [if_neg hc, if_neg hc]

/-- Witness for C8 at a concrete input with a language-tagged fenced
block. -/
theorem parse_fenced_block_witness :
    3 ≤ (pySplit "pre\n```python\nprint(1)\n```\npost" "```").length ∧
    parse_code_and_text "pre\n```python\nprint(1)\n```\npost" =
      (pyStrip (
        if pyContainsChar ((pySplit "pre\n```python\nprint(1)\n```\npost" "```").getD 1 "") '\n' then
          if pyStrip ((split_once ((pySplit "pre\n```python\nprint(1)\n```\npost" "```").getD 1 "") "\n").1) = "" ∨
             pyStartsWith (pyStrip ((split_once ((pySplit "pre\n```python\nprint(1)\n```\npost" "```").getD 1 "") "\n").1)) "#" then
            (pySplit "pre\n```python\nprint(1)\n```\npost" "```").getD 1 ""
          else (split_once ((pySplit "pre\n```python\nprint(1)\n```\npost" "```").getD 1 "") "\n").2
        else (pySplit "pre\n```python\nprint(1)\n```\npost" "```").getD 1 ""),
       pyStrip (((pySplit "pre\n```python\nprint(1)\n```\npost" "```").getD 0 "") ++
         String.join ((pySplit "pre\n```python\nprint(1)\n```\npost" "```").drop 2))) ∧
    parse_code_and_text "pre\n```python\nprint(1)\n```\npost" = ("print(1)", "pre\n\npost") :=
  ⟨by decide, parse_fenced_block_heuristic _ (by decide), by decide⟩

/-!
Helper lemmas about the Python truthiness combinators and substring
containment.
-/

/-- `x or ''` is `x` for a present string. -/
theorem pyOr_some_empty (x : String) : pyOr (some x) "" = x := by
  by_cases h : x = "" <;> simp [pyOr, h]

/-- A falsy optional string (absent or empty) falls through `or`. -/
theorem pyOr_falsy (o : Option String) (b : String) (h : pyOr o "" = "") :
    pyOr o b = b := by
  cases o with
  | none => rfl
  | some s =>
    by_cases hs : s = ""
    · simp [pyOr, hs]
    · simp [pyOr, hs] at h

/-- A truthy (non-empty) string wins `or`. -/
theorem pyOr_truthy (v b : String) (h : v ≠ "") : pyOr (some v) b = v := by
  simp [pyOr, h]

/-- Containment from an explicit decomposition of the character data. -/
theorem strContains_of_data (s pat : String) (pre post : List Char)
    (h : pre ++ pat.data ++ post = s.data) : strContains s pat = true := by
  rw [strContains, decide_eq_true_eq]
  exact ⟨pre, post, h⟩

/-- The projections of a constructed codex adapter, as the source's
truthiness chains. -/
theorem codexInit_model (env : Env) (model : Option String) (am : String) :
    (codexInit env model am).model =
      pyOr (env.getenv "PYCODEX_CODEX_MODEL")
        (pyOr model (pyOr (env.cfgCodex "model") "gpt-5-codex")) := rfl

theorem codexInit_approval (env : Env) (model : Option String) (am : String) :
    (codexInit env model am).approval_mode =
      (env.getenv "PYCODEX_APPROVAL").getD
        (pyOrS am (pyOr (env.cfgCodex "approval_mode") "suggest")) := rfl

theorem codexInit_base_cmd (env : Env) (model : Option String) (am : String) :
    (codexInit env model am).base_cmd =
      (env.getenv "PYCODEX_CODEX_CLI").getD (pyOr (env.cfgCodex "cli") "codex") := rfl

theorem codexInit_available (env : Env) (model : Option String) (am : String) :
    (codexInit env model am).available =
      (which env (codexInit env model am).base_cmd).isSome := rfl

theorem geminiInit_available (env : Env) (model : Option String) (am : String) :
    (geminiInit env model am).available =
      (which env (geminiInit env model am).base_cmd).isSome := rfl

/-- An adapter constructed while its binary is unresolvable, probed again
in an environment where it still is, fails the availability check. -/
theorem codex_unavailable_of_which (b : CodexBackend) (env : Env)
    (h0 : b.available = false) (h1 : which env b.base_cmd = none) :
    b.unavailable env = true := by
  simp [CodexBackend.unavailable, h0, h1]

theorem gemini_unavailable_of_which (b : GeminiBackend) (env : Env)
    (h0 : b.available = false) (h1 : which env b.base_cmd = none) :
    b.unavailable env = true := by
  simp [GeminiBackend.unavailable, h0, h1]

/-- Claim C1, amended: for either backend adapter whose configured binary is
unresolvable on the search path at construction time (`env0`) and at call
time (`env1`), the three operations `generate`, `explain` and `edit` fail
with `BackendNotFoundError` naming the configured binary, and no child
process is spawned.  (`exec_command` performs no availability check — see
the counterexample.) -/
theorem backend_unavailable_generate_explain_edit_fail
    (env0 env1 : Env) (model : Option String) (approval_mode : String)
    (gmodel : Option String) (gapproval : String)
    (prompt code instructions : String) (files : List String)
    (hc0 : which env0 (codexInit env0 model approval_mode).base_cmd = none)
    (hc1 : which env1 (codexInit env0 model approval_mode).base_cmd = none)
    (hg0 : which env0 (geminiInit env0 gmodel gapproval).base_cmd = none)
    (hg1 : which env1 (geminiInit env0 gmodel gapproval).base_cmd = none) :
    ((codexInit env0 model approval_mode).generate env1 prompt files =
      (Except.error (PyErr.backendNotFound ("Codex CLI not found: \x27" ++
        (codexInit env0 model approval_mode).base_cmd ++
        "\x27. Set PYCODEX_CODEX_CLI or install the CLI.")), [])) ∧
    ((codexInit env0 model approval_mode).explain env1 code =
      (Except.error (PyErr.backendNotFound ("Codex CLI not found: \x27" ++
        (codexInit env0 model approval_mode).base_cmd ++
        "\x27. Set PYCODEX_CODEX_CLI or install the CLI.")), [])) ∧
    ((codexInit env0 model approval_mode).edit env1 code instructions =
      (Except.error (PyErr.backendNotFound ("Codex CLI not found: \x27" ++
        (codexInit env0 model approval_mode).base_cmd ++
        "\x27. Set PYCODEX_CODEX_CLI or install the CLI.")), [])) ∧
    ((geminiInit env0 gmodel gapproval).generate env1 prompt files =
      (Except.error (PyErr.backendNotFound ("Gemini CLI not found: \x27" ++
        (geminiInit env0 gmodel gapproval).base_cmd ++
        "\x27. Set PYCODEX_GEMINI_CLI or install the CLI.")), [])) ∧
    ((geminiInit env0 gmodel gapproval).explain env1 code =
      (Except.error (PyErr.backendNotFound ("Gemini CLI not found: \x27" ++
        (geminiInit env0 gmodel gapproval).base_cmd ++
        "\x27. Set PYCODEX_GEMINI_CLI or install the CLI.")), [])) ∧
    ((geminiInit env0 gmodel gapproval).edit env1 code instructions =
      (Except.error (PyErr.backendNotFound ("Gemini CLI not found: \x27" ++
        (geminiInit env0 gmodel gapproval).base_cmd ++
        "\x27. Set PYCODEX_GEMINI_CLI or install the CLI.")), [])) := by
  have hcav : (codexInit env0 model approval_mode).available = false := by
    rw [codexInit_available, hc0]
    rfl
  have hgav : (geminiInit env0 gmodel gapproval).available = false := by
    rw [geminiInit_available, hg0]
    rfl
  have hcu := codex_unavailable_of_which _ env1 hcav hc1
  have hgu := gemini_unavailable_of_which _ env1 hgav hg1
  refine ⟨?_, ?_, ?_, ?_, ?_, ?_⟩ <;>
    simp [CodexBackend.generate, CodexBackend.explain, CodexBackend.edit,
      CodexBackend.run_exec, GeminiBackend.generate, GeminiBackend.explain,
      GeminiBackend.edit, GeminiBackend.invoke, hcu, hgu]

/-- Witness for the amended C1 at concrete inputs: an empty search path. -/
theorem backend_unavailable_witness :
    ((codexInit envYes (some "gpt-5-codex") "suggest").generate envYes "write f" [] =
      (Except.error (PyErr.backendNotFound ("Codex CLI not found: \x27" ++
        (codexInit envYes (some "gpt-5-codex") "suggest").base_cmd ++
        "\x27. Set PYCODEX_CODEX_CLI or install the CLI.")), [])) ∧
    ((geminiInit envYes (some "gemini-1") "suggest").generate envYes "write f" [] =
      (Except.error (PyErr.backendNotFound ("Gemini CLI not found: \x27" ++
        (geminiInit envYes (some "gemini-1") "suggest").base_cmd ++
        "\x27. Set PYCODEX_GEMINI_CLI or install the CLI.")), [])) :=
  ⟨(backend_unavailable_generate_explain_edit_fail envYes envYes
      (some "gpt-5-codex") "suggest" (some "gemini-1") "suggest"
      "write f" "" "" [] (by decide) (by decide) (by decide) (by decide)).1,
   (backend_unavailable_generate_explain_edit_fail envYes envYes
      (some "gpt-5-codex") "suggest" (some "gemini-1") "suggest"
      "write f" "" "" [] (by decide) (by decide) (by decide) (by decide)).2.2.2.1⟩

/-- Counterexample to C1 as stated: in an environment where the codex
binary is unresolvable (and stays so), `exec_command` does not fail with
`BackendNotFoundError` — it never checks availability — and it does spawn
a child process (`bash -lc ls`, approved at the interactive prompt). -/
theorem exec_command_no_availability_check :
    which envYes (codexInit envYes (some "gpt-5-codex") "suggest").base_cmd = none ∧
    isBackendNotFound
      ((codexInit envYes (some "gpt-5-codex") "suggest").exec_command envYes "ls" true).1 = false ∧
    ((codexInit envYes (some "gpt-5-codex") "suggest").exec_command envYes "ls" true).2 =
      [["bash", "-lc", "ls"]] := by
  decide

/-- Error path of `CodexBackend._run_exec` under a child that always exits
with non-zero status `s` and captured streams `out`/`err`. -/
theorem codex_run_exec_fail (b : CodexBackend) (env : Env) (p : String)
    (files : List String) (hb : b.available = true) (s : Int) (out err : String)
    (hs : s ≠ 0)
    (hp : ∀ c i t, env.proc c i t = ProcOutcome.completed s (some out) (some err)) :
    (b.run_exec env p files).1 =
      Except.error (PyErr.executionError
        ("Codex CLI failed (" ++ toString s ++ "): " ++ pyOrS (pyStrip err) (pyStrip out))) := by
  have hun : b.unavailable env = false := by
    simp [CodexBackend.unavailable, hb]
  simp only [CodexBackend.run_exec, hun, Bool.false_eq_true, if_false,
    run_subprocess, hp, pyOr_some_empty]
  rw [if_pos hs]

/-- Error path of `GeminiBackend._invoke` under the same child behaviour. -/
theorem gemini_invoke_fail (b : GeminiBackend) (env : Env) (sub p : String)
    (files : List String) (hb : b.available = true) (s : Int) (out err : String)
    (hs : s ≠ 0)
    (hp : ∀ c i t, env.proc c i t = ProcOutcome.completed s (some out) (some err)) :
    (b.invoke env sub p files).1 =
      Except.error (PyErr.executionError
        ("Gemini CLI failed (" ++ toString s ++ "): " ++ pyOrS (pyStrip err) (pyStrip out))) := by
  have hun : b.unavailable env = false := by
    simp [GeminiBackend.unavailable, hb]
  simp only [GeminiBackend.invoke, hun, Bool.false_eq_true, if_false,
    run_subprocess, hp, pyOr_some_empty]
  rw [if_pos hs]

/-- Claim C7: for every `generate`, `explain` or `edit` invocation on either
backend whose child exits with non-zero status `s`, the operation fails
with `ExecutionError` whose message contains the trimmed standard error —
or the trimmed standard output when the trimmed standard error is empty —
together with the exit status `s`. -/
theorem nonzero_exit_raises_execution_error (env : Env) (s : Int)
    (out err : String) (hs : s ≠ 0)
    (hp : ∀ c i t, env.proc c i t = ProcOutcome.completed s (some out) (some err))
    (cb : CodexBackend) (gb : GeminiBackend)
    (hcb : cb.available = true) (hgb : gb.available = true)
    (prompt code instructions : String) (files : List String) :
    ((cb.generate env prompt files).1 = Except.error (PyErr.executionError
      ("Codex CLI failed (" ++ toString s ++ "): " ++ pyOrS (pyStrip err) (pyStrip out)))) ∧
    ((cb.explain env code).1 = Except.error (PyErr.executionError
      ("Codex CLI failed (" ++ toString s ++ "): " ++ pyOrS (pyStrip err) (pyStrip out)))) ∧
    ((cb.edit env code instructions).1 = Except.error (PyErr.executionError
      ("Codex CLI failed (" ++ toString s ++ "): " ++ pyOrS (pyStrip err) (pyStrip out)))) ∧
    ((gb.generate env prompt files).1 = Except.error (PyErr.executionError
      ("Gemini CLI failed (" ++ toString s ++ "): " ++ pyOrS (pyStrip err) (pyStrip out)))) ∧
    ((gb.explain env code).1 = Except.error (PyErr.executionError
      ("Gemini CLI failed (" ++ toString s ++ "): " ++ pyOrS (pyStrip err) (pyStrip out)))) ∧
    ((gb.edit env code instructions).1 = Except.error (PyErr.executionError
      ("Gemini CLI failed (" ++ toString s ++ "): " ++ pyOrS (pyStrip err) (pyStrip out)))) ∧
    strContains ("Codex CLI failed (" ++ toString s ++ "): " ++ pyOrS (pyStrip err) (pyStrip out))
      (toString s) = true ∧
    strContains ("Codex CLI failed (" ++ toString s ++ "): " ++ pyOrS (pyStrip err) (pyStrip out))
      (if pyStrip err = "" then pyStrip out else pyStrip err) = true ∧
    strContains ("Gemini CLI failed (" ++ toString s ++ "): " ++ pyOrS (pyStrip err) (pyStrip out))
      (toString s) = true ∧
    strContains ("Gemini CLI failed (" ++ toString s ++ "): " ++ pyOrS (pyStrip err) (pyStrip out))
      (if pyStrip err = "" then pyStrip out else pyStrip err) = true := by
  refine ⟨codex_run_exec_fail cb env _ _ hcb s out err hs hp,
    codex_run_exec_fail cb env _ _ hcb s out err hs hp,
    codex_run_exec_fail cb env _ _ hcb s out err hs hp,
    gemini_invoke_fail gb env _ _ _ hgb s out err hs hp,
    gemini_invoke_fail gb env _ _ _ hgb s out err hs hp,
    gemini_invoke_fail gb env _ _ _ hgb s out err hs hp,
    ?_, ?_, ?_, ?_⟩
  · exact strContains_of_data _ _ ("Codex CLI failed (").data
      (("): " ++ pyOrS (pyStrip err) (pyStrip out)).data)
      (by simp [String.data_append])
  · show strContains _ (pyOrS (pyStrip err) (pyStrip out)) = true
    exact strContains_of_data _ _
      (("Codex CLI failed (" ++ toString s ++ "): ").data) []
      (by simp [String.data_append])
  · exact strContains_of_data _ _ ("Gemini CLI failed (").data
      (("): " ++ pyOrS (pyStrip err) (pyStrip out)).data)
      (by simp [String.data_append])
  · show strContains _ (pyOrS (pyStrip err) (pyStrip out)) = true
    exact strContains_of_data _ _
      (("Gemini CLI failed (" ++ toString s ++ "): ").data) []
      (by simp [String.data_append])

/-- Witness for C7 at concrete inputs: a stub tool exiting 2 with stderr
`"bad flag"` makes `generate` fail with an `ExecutionError` whose message
carries the status and the trimmed stderr. -/
theorem nonzero_exit_witness :
    (((codexInit envRun (some "gpt-5-codex") "suggest").generate envRun "write f" []).1 =
      Except.error (PyErr.executionError
        ("Codex CLI failed (" ++ toString (2 : Int) ++ "): " ++
          pyOrS (pyStrip "bad flag") (pyStrip "")))) ∧
    strContains ("Codex CLI failed (" ++ toString (2 : Int) ++ "): " ++
        pyOrS (pyStrip "bad flag") (pyStrip ""))
      (if pyStrip "bad flag" = "" then pyStrip "" else pyStrip "bad flag") = true :=
  ⟨(nonzero_exit_raises_execution_error envRun 2 "" "bad flag" (by decide)
      (fun _ _ _ => rfl)
      (codexInit envRun (some "gpt-5-codex") "suggest")
      (geminiInit envRun (some "gemini-1") "suggest")
      (by decide) (by decide) "write f" "c" "i" []).1,
   (nonzero_exit_raises_execution_error envRun 2 "" "bad flag" (by decide)
      (fun _ _ _ => rfl)
      (codexInit envRun (some "gpt-5-codex") "suggest")
      (geminiInit envRun (some "gemini-1") "suggest")
      (by decide) (by decide) "write f" "c" "i" []).2.2.2.2.2.2.2.1⟩

/-- Counterexample to C9 as stated: under the Python default constructor
arguments (`model='gpt-5-codex'`, `approval_mode='suggest'`) and with no
environment variable set, a model and an approval mode set only in the
config file are NOT the values the codex adapter uses — the non-empty
constructor defaults shadow the config file in the `env or arg or config
or default` chains. -/
theorem config_file_model_shadowed_by_default_arg :
    envCfg.getenv "PYCODEX_CODEX_MODEL" = none ∧
    envCfg.getenv "PYCODEX_APPROVAL" = none ∧
    envCfg.cfgCodex "model" = some "config-model" ∧
    envCfg.cfgCodex "approval_mode" = some "full-auto" ∧
    (codexInit envCfg (some "gpt-5-codex") "suggest").model = "gpt-5-codex" ∧
    (codexInit envCfg (some "gpt-5-codex") "suggest").model ≠ "config-model" ∧
    (codexInit envCfg (some "gpt-5-codex") "suggest").approval_mode = "suggest" ∧
    (codexInit envCfg (some "gpt-5-codex") "suggest").approval_mode ≠ "full-auto" := by
  decide

/-- Claim C9, amended: the codex adapter resolves each configuration value
with precedence environment variable over constructor argument over
config-file entry over hard-coded default (for `approval_mode` and the
binary a set-but-empty environment variable still wins, per
`os.getenv`'s default-argument form); a value set only in the config file
is used exactly when the constructor argument is absent or empty.  The
gemini adapter ignores the config file: model and approval mode are its
constructor arguments, and its binary is the environment variable or the
default. -/
theorem config_precedence_env_arg_file_default (env : Env)
    (model : Option String) (am : String) :
    (∀ v, env.getenv "PYCODEX_CODEX_MODEL" = some v → v ≠ "" →
      (codexInit env model am).model = v) ∧
    (pyOr (env.getenv "PYCODEX_CODEX_MODEL") "" = "" →
      ∀ a, model = some a → a ≠ "" → (codexInit env model am).model = a) ∧
    (pyOr (env.getenv "PYCODEX_CODEX_MODEL") "" = "" → pyOr model "" = "" →
      ∀ c, env.cfgCodex "model" = some c → c ≠ "" →
      (codexInit env model am).model = c) ∧
    (pyOr (env.getenv "PYCODEX_CODEX_MODEL") "" = "" → pyOr model "" = "" →
      pyOr (env.cfgCodex "model") "" = "" →
      (codexInit env model am).model = "gpt-5-codex") ∧
    (∀ v, env.getenv "PYCODEX_APPROVAL" = some v →
      (codexInit env model am).approval_mode = v) ∧
    (env.getenv "PYCODEX_APPROVAL" = none → am ≠ "" →
      (codexInit env model am).approval_mode = am) ∧
    (env.getenv "PYCODEX_APPROVAL" = none → am = "" →
      ∀ c, env.cfgCodex "approval_mode" = some c → c ≠ "" →
      (codexInit env model am).approval_mode = c) ∧
    (env.getenv "PYCODEX_APPROVAL" = none → am = "" →
      pyOr (env.cfgCodex "approval_mode") "" = "" →
      (codexInit env model am).approval_mode = "suggest") ∧
    (∀ v, env.getenv "PYCODEX_CODEX_CLI" = some v →
      (codexInit env model am).base_cmd = v) ∧
    (env.getenv "PYCODEX_CODEX_CLI" = none →
      ∀ c, env.cfgCodex "cli" = some c → c ≠ "" →
      (codexInit env model am).base_cmd = c) ∧
    (env.getenv "PYCODEX_CODEX_CLI" = none → pyOr (env.cfgCodex "cli") "" = "" →
      (codexInit env model am).base_cmd = "codex") ∧
    (∀ gm ga, (geminiInit env gm ga).model = gm) ∧
    (∀ gm ga, (geminiInit env gm ga).approval_mode = ga) ∧
    (∀ gm ga v, env.getenv "PYCODEX_GEMINI_CLI" = some v →
      (geminiInit env gm ga).base_cmd = v) ∧
    (∀ gm ga, env.getenv "PYCODEX_GEMINI_CLI" = none →
      (geminiInit env gm ga).base_cmd = "gemini") := by
  refine ⟨?_, ?_, ?_, ?_, ?_, ?_, ?_, ?_, ?_, ?_, ?_, ?_, ?_, ?_, ?_⟩
  · intro v hv hne
    rw [codexInit_model, hv, pyOr_truthy _ _ hne]
  · intro hf a ha hne
    rw [codexInit_model, pyOr_falsy _ _ hf, ha, pyOr_truthy _ _ hne]
  · intro hf hm c hc hne
    rw [codexInit_model, pyOr_falsy _ _ hf, pyOr_falsy _ _ hm, hc,
      pyOr_truthy _ _ hne]
  · intro hf hm hc
    rw [codexInit_model, pyOr_falsy _ _ hf, pyOr_falsy _ _ hm, pyOr_falsy _ _ hc]
  · intro v hv
    rw [codexInit_approval, hv, Option.getD_some]
  · intro hv hne
    rw [codexInit_approval, hv, Option.getD_none, pyOrS, if_neg hne]
  · intro hv ha c hc hne
    rw [codexInit_approval, hv, Option.getD_none, pyOrS, if_pos ha, hc,
      pyOr_truthy _ _ hne]
  · intro hv ha hc
    rw [codexInit_approval, hv, Option.getD_none, pyOrS, if_pos ha,
      pyOr_falsy _ _ hc]
  · intro v hv
    rw [codexInit_base_cmd, hv, Option.getD_some]
  · intro hv c hc hne
    rw [codexInit_base_cmd, hv, Option.getD_none, hc, pyOr_truthy _ _ hne]
  · intro hv hc
    rw [codexInit_base_cmd, hv, Option.getD_none, pyOr_falsy _ _ hc]
  · intro gm ga
    rfl
  · intro gm ga
    rfl
  · intro gm ga v hv
    simp [geminiInit, hv]
  · intro gm ga hv
    simp [geminiInit, hv]

/-- Witness for the amended C9 at concrete inputs: the environment variable
wins over everything; with no variable and an absent constructor argument
the config-file entry wins. -/
theorem config_precedence_witness :
    (codexInit envE (some "gpt-5-codex") "suggest").model = "env-model" ∧
    (codexInit envCfg none "suggest").model = "config-model" :=
  ⟨(config_precedence_env_arg_file_default envE (some "gpt-5-codex") "suggest").1
      "env-model" rfl (by decide),
   ((config_precedence_env_arg_file_default envCfg none "suggest").2.2.1
      (by decide) (by decide) "config-model" rfl (by decide))⟩

end Pycodex
